import Mathlib

/-!
Verification of the agents-mcp-server directory / message-routing engine.

Shallow embedding of the stable-pane-aware server variant:
  * `src/unnamed/part_002`  — MCP tool handlers (agent_register, agent_deregister,
    agent_broadcast, agent_dm, channel_send) and `runSnd`;
  * `src/src/db.ts`         — DuckDB layer (`registerAgent`, `deregisterAgent`,
    `getAgentByName`, `getAgents`, `logMessage`);
  * `src/unnamed/part_001`  — the guarded collision-delete predicate
    (conditions built only from non-empty supplied fields);
  * `src/tests/guards.test.ts` — the pane-resolution chain
    `agent.stable_pane || agent.pane_id || null`.

JavaScript `string || fallback` truthiness (empty string and null/undefined are
falsy, everything else — including whitespace-only strings — truthy) is embedded
by `strTruthy` / `jsOrStr`.  Timestamps (`registered_at`, message `timestamp`)
play no role in any claim and are omitted from the records.  The asynchronous
`snd` delivery subprocess is a parameter `snd : String → Except String Unit`
(address ↦ outcome), and each handler additionally returns the list of
observable events (log write, delivery start, delivery end) in the order the
sequential `await` code performs them.
-/

namespace AgentsMcp

/-- A row of the `agents` table (schema of `src/unnamed/part_001`:
`id` primary key, `name`, `group_name`, nullable `pane_id`, nullable
`stable_pane`; `registered_at` omitted — no claim mentions it). -/
structure Agent where
  id : String
  name : String
  group_name : String
  pane_id : Option String
  stable_pane : Option String
deriving Repr, DecidableEq

/-- A row of the `messages` table (`src/src/db.ts`; `timestamp` omitted). -/
structure Msg where
  id : Nat
  type : String
  from_agent : Option String
  to_agent : Option String
  channel : Option String
  content : String
deriving Repr, DecidableEq

/-- The message log together with the `msg_seq` sequence
(`CREATE SEQUENCE msg_seq START 1`). -/
structure MsgLog where
  next : Nat := 1
  msgs : List Msg := []
deriving Repr, DecidableEq

/-- JavaScript truthiness of a nullable string: null/undefined and the empty
string are falsy, every other string (whitespace included) is truthy. -/
def strTruthy : Option String → Bool
  | none => false
  | some s => s != ""

/-- JavaScript `a || b` for a nullable string `a` and a string fallback `b`. -/
def jsOrStr (a : Option String) (b : String) : String :=
  match a with
  | some s => if s != "" then s else b
  | none => b

/-- JavaScript template interpolation of a nullable string: `null` prints as
the four letters "null". -/
def jsShow : Option String → String
  | none => "null"
  | some s => s

/-- Pane resolution chain of `src/tests/guards.test.ts` lines 258-275
(`agent.stable_pane || agent.pane_id || null`), the same preference
`runSnd` applies (`src/unnamed/part_002` line 25). -/
def resolveTarget (stable_pane pane_id : Option String) : Option String :=
  if strTruthy stable_pane then stable_pane
  else if strTruthy pane_id then pane_id
  else none

/-- The target address computed inside `runSnd` (`src/unnamed/part_002`
line 25): `const target = stablePane || pane` where the caller passes
`target.pane_id || ""` for `pane`. -/
def runSndTarget (pane : String) (stablePane : Option String) : String :=
  match stablePane with
  | some s => if s != "" then s else pane
  | none => pane

/-- The guarded collision-delete predicate of `src/unnamed/part_001`
lines 67-69: `name = '<n>'` always, `OR pane_id = '<p>'` only when the
supplied `p` is non-empty, `OR stable_pane = '<s>'` only when the supplied
`s` is non-empty (SQL `col = 'v'` is false on a NULL column, hence the
comparison with `some`). -/
def guardedMatch (agentName paneId stablePane : String) (row : Agent) : Bool :=
  row.name == agentName
    || (paneId != "" && row.pane_id == some paneId)
    || (stablePane != "" && row.stable_pane == some stablePane)

/-- `DELETE FROM agents WHERE <guarded conditions>` (`src/unnamed/part_001`
line 70): the rows the guarded predicate does not match survive. -/
def guardedDelete (rows : List Agent) (agentName paneId stablePane : String) :
    List Agent :=
  rows.filter (fun r => !(guardedMatch agentName paneId stablePane r))

/-- `SELECT * FROM agents WHERE name = ?` followed by `rows[0]`
(`src/src/db.ts` `getAgentByName`). -/
def getAgentByName (agents : List Agent) (name : String) : Option Agent :=
  agents.find? (fun a => a.name == name)

/-- `getAgents` (`src/src/db.ts`): all rows, or the rows of one group. -/
def getAgents (agents : List Agent) (group : Option String) : List Agent :=
  match group with
  | some g => agents.filter (fun a => a.group_name == g)
  | none => agents

/-- `INSERT OR REPLACE INTO agents ... VALUES (id, name, group, paneId, now())`
(`src/src/db.ts` `registerAgent`): replace the row holding the primary key
`id` when one exists, otherwise append a new row.  The statement lists no
`stable_pane` column, so the written row carries none. -/
def registerAgent (agents : List Agent) (id name group paneId : String) :
    List Agent :=
  if agents.any (fun r => r.id == id) then
    agents.map (fun r => if r.id == id then ⟨id, name, group, some paneId, none⟩ else r)
  else
    agents ++ [⟨id, name, group, some paneId, none⟩]

/-- `deregisterAgent` (`src/src/db.ts` lines 78-87): select the row by `id`,
and when present delete it and return the pre-deletion snapshot — one pure
step, no observer between the read and the delete. -/
def deregisterAgent (agents : List Agent) (id : String) :
    List Agent × Option Agent :=
  match agents.find? (fun r => r.id == id) with
  | some r => (agents.filter (fun x => x.id != id), some r)
  | none => (agents, none)

/-- `logMessage` (`src/src/db.ts`): draw `nextval('msg_seq')`, insert the row,
return the drawn id. -/
def logMessage (log : MsgLog) (type : String) (fromA toA ch : Option String)
    (content : String) : Nat × MsgLog :=
  (log.next,
   { next := log.next + 1,
     msgs := log.msgs ++ [⟨log.next, type, fromA, toA, ch, content⟩] })

/-- Observable events of one tool call, in execution order: the message-log
write, and the start and end of each awaited `snd` delivery. -/
inductive Ev where
  | logWrite (id : Nat)
  | sndStart (agent : String) (addr : String) (msg : String)
  | sndEnd (agent : String) (ok : Bool)
deriving Repr, DecidableEq

/-- Shared server state: the `agents` table and the message log. -/
structure World where
  agents : List Agent
  log : MsgLog
deriving Repr, DecidableEq

/-- Result of one tool call: the state after the call, the text returned to
the caller, and the event trace. -/
structure CallOut where
  world : World
  result : String
  trace : List Ev
deriving Repr, DecidableEq

/-- Whether the delivery oracle reports success for an address. -/
def sndOk (snd : String → Except String Unit) (addr : String) : Bool :=
  match snd addr with
  | .ok _ => true
  | .error _ => false

/-- The address a broadcast/DM delivery hands to `snd`:
`runSnd(target.pane_id || "", msg, target.stable_pane)`
(`src/unnamed/part_002` lines 198, 246, 335). -/
def sndAddr (t : Agent) : String :=
  runSndTarget (jsOrStr t.pane_id "") t.stable_pane

/-- `sender.group_name || "default"` (`src/unnamed/part_002` line 171). -/
def senderGroupOf (s : Agent) : String :=
  if s.group_name != "" then s.group_name else "default"

/-- `group === "all" ? null : (group || senderGroup)`
(`src/unnamed/part_002` line 176). -/
def targetGroupOf (group : Option String) (senderGroup : String) :
    Option String :=
  if group == some "all" then none else some (jsOrStr group senderGroup)

/-- First broadcast target filter (`src/unnamed/part_002` line 174):
`agents.filter(a => a && a.name && a.name !== name && a.pane_id)`. -/
def broadcastTargets (agents : List Agent) (senderName : String) : List Agent :=
  agents.filter (fun a =>
    a.name != "" && a.name != senderName && strTruthy a.pane_id)

/-- Broadcast target selection: the name/pane filter, then the group filter
when a target group applies (`src/unnamed/part_002` lines 174-179). -/
def broadcastTargetSel (agents : List Agent) (senderName : String)
    (targetGroup : Option String) : List Agent :=
  let t0 := broadcastTargets agents senderName
  match targetGroup with
  | some g => t0.filter (fun a => a.group_name == g)
  | none => t0

/-- The error text of an unregistered broadcast sender
(`src/unnamed/part_002` line 169). -/
def errNotRegistered (name : String) : String :=
  "Error: You (" ++ name ++ ") not registered or registration incomplete. " ++
  "Call agent_register(name, description) first, then wait a moment for hook to complete."

/-- The empty-target-set report (`src/unnamed/part_002` lines 181-187):
distinguishes an empty group from an empty directory, listing the non-empty
group names (`[...new Set(...)]` keeps first occurrences). -/
def noTargetsMsg (agents : List Agent) (targetGroup : Option String) : String :=
  match targetGroup with
  | some g =>
    let groups := ((agents.filter (fun a => a.group_name != "")).map
        (fun a => a.group_name)).eraseDups
    "Error: No agents in group '" ++ g ++ "'. Available groups: " ++
      String.intercalate ", " groups ++
      ". Use agent_discover() or try group=\"all\"."
  | none =>
    "Error: No other agents online. You're alone. Wait for others to join or check agent_discover()."

/-- ` in group '<g>'` or ` (all groups)` (`src/unnamed/part_002` line 206). -/
def groupInfoStr (targetGroup : Option String) : String :=
  match targetGroup with
  | some g => " in group '" ++ g ++ "'"
  | none => " (all groups)"

/-- The aggregate broadcast report (`src/unnamed/part_002` line 207). -/
def broadcastReport (n : Nat) (targetGroup : Option String)
    (results : List String) : String :=
  "Broadcast sent to " ++ toString n ++ " agent(s)" ++ groupInfoStr targetGroup ++
    ":\n" ++ String.intercalate "\n" results

/-- The sequential delivery loop of `agent_broadcast`
(`src/unnamed/part_002` lines 195-204): each target in order, the delivery
awaited before the next starts, success pushed as a check-mark entry, a
caught failure pushed as a cross entry with the reason, a target with
neither pane field silently skipped. -/
def broadcastLoop (snd : String → Except String Unit) (fmsg : String) :
    List Agent → List String × List Ev
  | [] => ([], [])
  | t :: ts =>
    let rest := broadcastLoop snd fmsg ts
    if strTruthy t.pane_id || strTruthy t.stable_pane then
      match snd (sndAddr t) with
      | .ok _ =>
        (("✓ " ++ t.name) :: rest.1,
         Ev.sndStart t.name (sndAddr t) fmsg :: Ev.sndEnd t.name true :: rest.2)
      | .error e =>
        (("✗ " ++ t.name ++ ": " ++ e) :: rest.1,
         Ev.sndStart t.name (sndAddr t) fmsg :: Ev.sndEnd t.name false :: rest.2)
    else rest

/-- The `agent_broadcast` handler (`src/unnamed/part_002` lines 165-208). -/
def agentBroadcast (w : World) (snd : String → Except String Unit)
    (name message : String) (group : Option String) : CallOut :=
  match getAgentByName w.agents name with
  | none => ⟨w, errNotRegistered name, []⟩
  | some sender =>
    if sender.id = "" then ⟨w, errNotRegistered name, []⟩
    else
      let targetGroup := targetGroupOf group (senderGroupOf sender)
      let targets := broadcastTargetSel w.agents name targetGroup
      if targets = [] then ⟨w, noTargetsMsg w.agents targetGroup, []⟩
      else
        let logId := (logMessage w.log "BROADCAST" (some sender.id) none none message).1
        let log' := (logMessage w.log "BROADCAST" (some sender.id) none none message).2
        let fmsg := "[" ++ name ++ "] " ++ message
        let run := broadcastLoop snd fmsg targets
        ⟨⟨w.agents, log'⟩,
         broadcastReport targets.length targetGroup run.1,
         Ev.logWrite logId :: run.2⟩

/-- Result of the `agent_register` tool (`src/unnamed/part_002` lines 101-106):
the JSON body, plus the agents table after the call — the handler performs no
directory write (the row is written later by the PostToolUse hook, per the
comments at `src/src/index.ts` lines 258 and 270). -/
structure RegOut where
  agents : List Agent
  agent_id : String
  group : String
  peers : List (String × String)
deriving Repr, DecidableEq

/-- The `agent_register` handler (`src/unnamed/part_002` lines 91-107):
resolve the id (`existing?.id || generateAgentId(name)`, the fresh random id
supplied here as `fresh`), collect the peers of the group, and return —
without touching the `agents` table.  The `description` argument is accepted
and unused by the source handler, so it is omitted. -/
def agentRegister (dir : List Agent) (fresh name group : String) : RegOut :=
  let groupName := if group != "" then group else "default"
  let agentId := jsOrStr ((getAgentByName dir name).map (fun a => a.id)) fresh
  let peers := ((getAgents dir (some groupName)).filter
      (fun a => a.name != "" && a.name != name)).map
      (fun a => (a.name, a.group_name))
  ⟨dir, agentId, groupName, peers⟩

/-- The id `agent_register` answers with: the existing row's id when a row
with the name exists and its id is non-empty, the fresh id otherwise
(`src/unnamed/part_002` line 95). -/
def generateResolvedId (dir : List Agent) (name fresh : String) : String :=
  jsOrStr ((getAgentByName dir name).map (fun a => a.id)) fresh

/-- The two-phase registration flow the spec describes (§3 lifecycle, §4.2):
`agent_register` resolves the identity, then the PostToolUse hook completes
the registration by calling `db.registerAgent` with the resolved id and the
detected pane (comments at `src/src/index.ts` lines 258, 270). -/
def registerFlow (dir : List Agent) (fresh name group paneId : String) :
    List Agent :=
  registerAgent dir (generateResolvedId dir name fresh) name group paneId

/-- Result of the `agent_deregister` tool (`src/unnamed/part_002`
lines 122-148): the state after the call, the success flag (always true),
and the pre-deletion snapshot the JSON body carries (with
`group_name: agent.group_name || "default"`). -/
structure DeregOut where
  world : World
  success : Bool
  record : Option Agent
  note : String
deriving Repr, DecidableEq

/-- The `agent_deregister` handler (`src/unnamed/part_002` lines 122-148):
absent (or empty-id) name is success with no change; otherwise capture the
record, delete by id, and append the LEFT log entry
`<name> left (group: <group>, pane: <pane_id>)`. -/
def agentDeregister (w : World) (name : String) : DeregOut :=
  match getAgentByName w.agents name with
  | none => ⟨w, true, none, "was already gone or never registered"⟩
  | some a =>
    if a.id = "" then ⟨w, true, none, "was already gone or never registered"⟩
    else
      let agents' := (deregisterAgent w.agents a.id).1
      let log' := (logMessage w.log "LEFT" (some a.id) none none
        (a.name ++ " left (group: " ++ a.group_name ++ ", pane: " ++
          jsShow a.pane_id ++ ")")).2
      ⟨⟨agents', log'⟩, true,
       some { a with group_name := jsOrStr (some a.group_name) "default" },
       "Deregistered " ++ name⟩

/-- The target-not-found error of `agent_dm`
(`src/unnamed/part_002` lines 234-236). -/
def dmErrNotFound (agents : List Agent) (toName : String) : String :=
  let names := String.intercalate ", "
    ((agents.filter (fun a => a.name != "")).map (fun a => a.name))
  "Error: Agent '" ++ toName ++ "' not found. Active agents: " ++
    (if names != "" then names else "none") ++ ". Use agent_discover() to refresh."

/-- The `agent_dm` handler (`src/unnamed/part_002` lines 225-252). -/
def agentDM (w : World) (snd : String → Except String Unit)
    (name toName message : String) : CallOut :=
  match getAgentByName w.agents name with
  | none =>
    ⟨w, "Error: You (" ++ name ++ ") not registered or registration incomplete. Call agent_register(name, description) first.", []⟩
  | some sender =>
    if sender.id = "" then
      ⟨w, "Error: You (" ++ name ++ ") not registered or registration incomplete. Call agent_register(name, description) first.", []⟩
    else
      match getAgentByName w.agents toName with
      | none => ⟨w, dmErrNotFound w.agents toName, []⟩
      | some target =>
        if target.id = "" then ⟨w, dmErrNotFound w.agents toName, []⟩
        else if !strTruthy target.pane_id && !strTruthy target.stable_pane then
          ⟨w, "Error: Agent '" ++ toName ++ "' has no tmux pane (may have disconnected). Use agent_discover() to see active agents.", []⟩
        else
          let logId := (logMessage w.log "DM" (some sender.id) (some target.id) none message).1
          let log' := (logMessage w.log "DM" (some sender.id) (some target.id) none message).2
          let fmsg := "[DM from " ++ name ++ "] " ++ message
          match snd (sndAddr target) with
          | .ok _ =>
            ⟨⟨w.agents, log'⟩, "DM sent to " ++ target.name,
             [Ev.logWrite logId, Ev.sndStart target.name (sndAddr target) fmsg,
              Ev.sndEnd target.name true]⟩
          | .error e =>
            ⟨⟨w.agents, log'⟩, "Failed to send DM: " ++ e,
             [Ev.logWrite logId, Ev.sndStart target.name (sndAddr target) fmsg,
              Ev.sndEnd target.name false]⟩

/-- Channel recipient selection (`src/unnamed/part_002` lines 327-328):
members of the channel's group, other than the sender, holding some pane
field. -/
def channelTargets (agents : List Agent) (senderName channel : String) :
    List Agent :=
  (getAgents agents (some channel)).filter (fun a =>
    a.name != "" && a.name != senderName &&
      (strTruthy a.pane_id || strTruthy a.stable_pane))

/-- The delivery loop of `channel_send` (`src/unnamed/part_002`
lines 332-340): sequential, failures swallowed, no per-target report. -/
def channelLoop (snd : String → Except String Unit) (fmsg : String) :
    List Agent → List Ev
  | [] => []
  | t :: ts =>
    if strTruthy t.pane_id || strTruthy t.stable_pane then
      Ev.sndStart t.name (sndAddr t) fmsg ::
        Ev.sndEnd t.name (sndOk snd (sndAddr t)) :: channelLoop snd fmsg ts
    else channelLoop snd fmsg ts

/-- The `channel_send` handler (`src/unnamed/part_002` lines 320-343):
log one CHANNEL entry unconditionally with `sender?.id || name` as the
sender identity, then notify the channel's group members. -/
def channelSend (w : World) (snd : String → Except String Unit)
    (name channel message : String) : CallOut :=
  let senderId := jsOrStr ((getAgentByName w.agents name).map (fun a => a.id)) name
  let log' := (logMessage w.log "CHANNEL" (some senderId) none (some channel) message).2
  let logId := (logMessage w.log "CHANNEL" (some senderId) none (some channel) message).1
  let targets := channelTargets w.agents name channel
  let fmsg := "[#" ++ channel ++ "] " ++ name ++ ": " ++ message
  ⟨⟨w.agents, log'⟩,
   "Message sent to #" ++ channel ++ " (" ++ toString targets.length ++ " recipients)",
   Ev.logWrite logId :: channelLoop snd fmsg targets⟩

/-! Concrete fixtures (the rows of the collision test `src/unnamed/part_001`
lines 43-45 and a stable-pane directory like the one of
`src/tests/guards.test.ts` lines 175-178). -/

/-- Row `('a-1', 'big-bee', 'evening', '%0', '')` of `src/unnamed/part_001`. -/
def bigBee : Agent := ⟨"a-1", "big-bee", "evening", some "%0", some ""⟩

/-- Row `('b-1', 'lil-bee', 'evening', '%1', '')` of `src/unnamed/part_001`. -/
def lilBee : Agent := ⟨"b-1", "lil-bee", "evening", some "%1", some ""⟩

/-- A registered sender with both pane fields. -/
def aliceR : Agent := ⟨"alice-1", "alice", "research", some "%1", some "task:1.1"⟩

/-- An agent whose only address is the durable `stable_pane`. -/
def bobStable : Agent := ⟨"bob-1", "bob", "research", none, some "task:1.2"⟩

/-! Shared helper lemmas. -/

/-- Per-target outcome string of the broadcast loop. -/
def deliveryResult (snd : String → Except String Unit) (t : Agent) : String :=
  match snd (sndAddr t) with
  | .ok _ => "✓ " ++ t.name
  | .error e => "✗ " ++ t.name ++ ": " ++ e

/-- Per-target event pair of the broadcast loop. -/
def deliveryEvents (snd : String → Except String Unit) (fmsg : String)
    (t : Agent) : List Ev :=
  [Ev.sndStart t.name (sndAddr t) fmsg, Ev.sndEnd t.name (sndOk snd (sndAddr t))]

theorem broadcastLoop_eq (snd : String → Except String Unit) (fmsg : String)
    (ts : List Agent) (h : ∀ t ∈ ts, strTruthy t.pane_id = true) :
    broadcastLoop snd fmsg ts =
      (ts.map (deliveryResult snd), ts.flatMap (deliveryEvents snd fmsg)) := by
  induction ts with
  | nil => rfl
  | cons t ts ih =>
    have ht : strTruthy t.pane_id = true := h t (List.mem_cons_self t ts)
    have ihr := ih (fun x hx => h x (List.mem_cons_of_mem t hx))
    simp only [broadcastLoop, ihr, ht, Bool.true_or, if_true]
    cases hs : snd (sndAddr t) with
    | ok u =>
      simp [deliveryResult, deliveryEvents, sndOk, hs, List.flatMap_cons]
    | error e =>
      simp [deliveryResult, deliveryEvents, sndOk, hs, List.flatMap_cons]

theorem mem_broadcastTargets {agents : List Agent} {n : String} {t : Agent}
    (h : t ∈ broadcastTargets agents n) : strTruthy t.pane_id = true := by
  have := (List.mem_filter.mp h).2
  simp only [Bool.and_eq_true] at this
  exact this.2

theorem mem_broadcastTargetSel {agents : List Agent} {n : String}
    {tg : Option String} {t : Agent} (h : t ∈ broadcastTargetSel agents n tg) :
    strTruthy t.pane_id = true := by
  unfold broadcastTargetSel at h
  cases tg with
  | none => exact mem_broadcastTargets h
  | some g => exact mem_broadcastTargets (List.mem_filter.mp h).1

/-- In a list whose ids are pairwise distinct, the lookup by a member's id
finds exactly that member. -/
theorem find?_id_of_mem {l : List Agent} {a : Agent}
    (hmem : a ∈ l) (hnodup : (l.map (fun r => r.id)).Nodup) :
    l.find? (fun r => r.id == a.id) = some a := by
  induction l with
  | nil => cases hmem
  | cons x xs ih =>
    rcases List.mem_cons.mp hmem with h | h
    · subst h
      simp [List.find?]
    · have hx : x.id ≠ a.id := by
        intro hcon
        have : a.id ∈ xs.map (fun r => r.id) := List.mem_map_of_mem _ h
        rw [← hcon] at this
        exact (List.nodup_cons.mp hnodup).1 this
      have : (x.id == a.id) = false := by
        exact beq_eq_false_iff_ne.mpr hx
      simp [List.find?, this]
      exact ih h (List.nodup_cons.mp hnodup).2

/-! ### Claim C1 -/

/-- C1: when the supplied `stable_pane` is empty, the guarded delete predicate
is built only from the non-empty supplied fields — a row of an unrelated name
(not matching the non-empty `pane_id` clause) is never matched, even when its
own `stable_pane` is also empty; concretely, with pre-existing rows
`big-bee` and `lil-bee` (both with `stable_pane = ''`), the delete issued for
the registration `(name="dev", pane_id="%4", stable_pane="")` leaves both
rows present. -/
theorem c1_guarded_delete_empty_stable :
    (∀ (n p : String) (row : Agent), row.name ≠ n →
      (p = "" ∨ row.pane_id ≠ some p) → guardedMatch n p "" row = false) ∧
    guardedDelete [bigBee, lilBee] "dev" "%4" "" = [bigBee, lilBee] := by
  constructor
  · intro n p row hn hp
    rcases hp with h | h
    · subst h
      simp [guardedMatch, hn]
    · simp [guardedMatch, hn, h]
  · decide

/-- Witness for C1 at the literal rows of `src/unnamed/part_001`. -/
theorem c1_guarded_delete_empty_stable_witness :
    (bigBee.name ≠ "dev" ∧ (("%4" : String) = "" ∨ bigBee.pane_id ≠ some "%4")) ∧
    guardedMatch "dev" "%4" "" bigBee = false ∧
    guardedDelete [bigBee, lilBee] "dev" "%4" "" = [bigBee, lilBee] :=
  ⟨⟨by decide, Or.inr (by decide)⟩,
   c1_guarded_delete_empty_stable.1 "dev" "%4" bigBee (by decide)
     (Or.inr (by decide)),
   c1_guarded_delete_empty_stable.2⟩

/-! ### Claim C2 -/

/-- C2 counterexample: `agent_register` itself writes no directory row — in an
empty directory, after the call `agent_register("alice", ...)` returns, the
directory is still empty and no row for the name exists, contradicting the
claim that the call itself writes (or re-writes) a directory row for the
name. -/
theorem c2_register_writes_no_row :
    (agentRegister [] "alice-1111" "alice" "default").agents = [] ∧
    getAgentByName (agentRegister [] "alice-1111" "alice" "default").agents
      "alice" = none :=
  ⟨rfl, rfl⟩

/-- C2 (amended): `agent_register` resolves or generates the identity and
returns it, but performs no directory write — the `agents` table after the
call is the table before it.  The directory row is written by the separate
hook step `registerAgent`, after which a row for the name exists. -/
theorem c2_register_resolves_only (dir : List Agent)
    (fresh name group id paneId : String) :
    (agentRegister dir fresh name group).agents = dir ∧
    (agentRegister dir fresh name group).agent_id =
      generateResolvedId dir name fresh ∧
    (getAgentByName (registerAgent dir id name group paneId) name).isSome := by
  refine ⟨rfl, rfl, ?_⟩
  unfold getAgentByName registerAgent
  rw [List.find?_isSome]
  by_cases h : dir.any (fun r => r.id == id)
  · rcases List.any_eq_true.mp h with ⟨r₀, hr₀, hid⟩
    refine ⟨⟨id, name, group, some paneId, none⟩, ?_, by simp⟩
    simp only [h, if_true]
    exact List.mem_map.mpr ⟨r₀, hr₀, by simp [hid]⟩
  · refine ⟨⟨id, name, group, some paneId, none⟩, ?_, by simp⟩
    simp only [h]
    simp

/-! ### Claim C3 -/

/-- C3 counterexample: a whitespace-only `stable_pane` is truthy in the
resolution chain `stable_pane || pane_id || null`, so it is returned as the
address rather than treated as absent — refuting the claim that a
whitespace-only value counts as absent (which would make resolution return
the non-empty `pane_id` here). -/
theorem c3_whitespace_is_truthy :
    resolveTarget (some " ") (some "%1") = some " " ∧
    resolveTarget (some " ") (some "%1") ≠ some "%1" ∧
    (" ").data.all Char.isWhitespace = true ∧ (" ") ≠ "" := by
  refine ⟨rfl, by decide, by decide, by decide⟩

/-- C3 (amended): pane resolution prefers `stable_pane` whenever it is truthy
(non-null and non-empty — whitespace-only included), otherwise falls back to
`pane_id` when truthy, otherwise yields no deliverable address; only null and
the empty string count as absent. -/
theorem c3_resolve_precedence (sp pid : Option String) :
    (strTruthy sp = true → resolveTarget sp pid = sp) ∧
    (strTruthy sp = false → strTruthy pid = true → resolveTarget sp pid = pid) ∧
    (strTruthy sp = false → strTruthy pid = false → resolveTarget sp pid = none) := by
  refine ⟨fun h => ?_, fun h h2 => ?_, fun h h2 => ?_⟩ <;>
    simp [resolveTarget, h]
  · simp [h2]
  · simp [h2]

/-- Witness for C3 (amended) on the three concrete shapes of record the
guards tests exercise. -/
theorem c3_resolve_precedence_witness :
    (strTruthy (some "task:1.1") = true ∧
      resolveTarget (some "task:1.1") (some "%9") = some "task:1.1") ∧
    (strTruthy (some "") = false ∧ strTruthy (some "%89") = true ∧
      resolveTarget (some "") (some "%89") = some "%89") ∧
    (strTruthy (none : Option String) = false ∧
      strTruthy (some "") = false ∧
      resolveTarget none (some "") = none) :=
  ⟨⟨by decide, (c3_resolve_precedence (some "task:1.1") (some "%9")).1 (by decide)⟩,
   ⟨by decide, by decide,
    (c3_resolve_precedence (some "") (some "%89")).2.1 (by decide) (by decide)⟩,
   ⟨by decide, by decide,
    (c3_resolve_precedence none (some "")).2.2 (by decide) (by decide)⟩⟩

/-! ### Claim C4 -/

/-- C4: registering the same name twice (two-phase flow: id resolution by
`agent_register`, row write by the hook's `registerAgent`) yields exactly one
directory row for that name; the first registration generates the fresh id
(no prior row for the name exists), the second reuses it, and the surviving
row carries the second call's group and pane values. -/
theorem c4_reregistration_idempotent (dir : List Agent)
    (n g1 g2 p1 p2 f1 f2 : String)
    (hname : ∀ r ∈ dir, r.name ≠ n)
    (hfresh : ∀ r ∈ dir, r.id ≠ f1)
    (hf1 : f1 ≠ "") :
    generateResolvedId dir n f1 = f1 ∧
    generateResolvedId (registerFlow dir f1 n g1 p1) n f2 = f1 ∧
    (registerFlow (registerFlow dir f1 n g1 p1) f2 n g2 p2).filter
      (fun r => r.name == n) = [⟨f1, n, g2, some p2, none⟩] := by
  have hfind : getAgentByName dir n = none := by
    unfold getAgentByName
    exact List.find?_eq_none.mpr (fun x hx => by simp [hname x hx])
  have hgen1 : generateResolvedId dir n f1 = f1 := by
    unfold generateResolvedId
    rw [hfind]
    rfl
  have hany1 : dir.any (fun r => r.id == f1) = false := by
    rw [List.any_eq_false]
    intro x hx
    simp [hfresh x hx]
  have hd1 : registerFlow dir f1 n g1 p1 =
      dir ++ [⟨f1, n, g1, some p1, none⟩] := by
    unfold registerFlow registerAgent
    rw [hgen1, hany1]
    simp
  have hfind1 : getAgentByName (registerFlow dir f1 n g1 p1) n =
      some ⟨f1, n, g1, some p1, none⟩ := by
    rw [hd1]
    unfold getAgentByName
    rw [List.find?_append,
      show List.find? (fun a => a.name == n) dir = none from hfind]
    simp [List.find?]
  have hgen2 : generateResolvedId (registerFlow dir f1 n g1 p1) n f2 = f1 := by
    unfold generateResolvedId
    rw [hfind1]
    simp [jsOrStr, hf1]
  refine ⟨hgen1, hgen2, ?_⟩
  have hany2 : (dir ++ [(⟨f1, n, g1, some p1, none⟩ : Agent)]).any
      (fun r => r.id == f1) = true := by
    rw [List.any_eq_true]
    exact ⟨⟨f1, n, g1, some p1, none⟩, by simp, by simp⟩
  have hd2 : registerFlow (registerFlow dir f1 n g1 p1) f2 n g2 p2 =
      dir ++ [⟨f1, n, g2, some p2, none⟩] := by
    conv_lhs => rw [registerFlow, hgen2, hd1]
    unfold registerAgent
    rw [hany2, if_pos rfl, List.map_append]
    congr 1
    · calc dir.map (fun r => if r.id == f1 then
            (⟨f1, n, g2, some p2, none⟩ : Agent) else r)
          = dir.map id := by
            apply List.map_congr_left
            intro r hr
            simp [hfresh r hr]
        _ = dir := List.map_id dir
    · simp
  rw [hd2, List.filter_append]
  have : dir.filter (fun r => r.name == n) = [] := by
    rw [List.filter_eq_nil_iff]
    intro r hr
    simp [hname r hr]
  rw [this]
  simp

/-- Witness for C4: `alice` registers twice over a directory holding only
`big-bee`; one `alice` row remains, with the first id and the latest pane. -/
theorem c4_reregistration_idempotent_witness :
    ((∀ r ∈ [bigBee], r.name ≠ "alice") ∧
      (∀ r ∈ [bigBee], r.id ≠ "alice-1111") ∧ ("alice-1111" : String) ≠ "") ∧
    (registerFlow (registerFlow [bigBee] "alice-1111" "alice" "research" "%1")
        "alice-2222" "alice" "tasks" "%9").filter (fun r => r.name == "alice") =
      [⟨"alice-1111", "alice", "tasks", some "%9", none⟩] :=
  ⟨⟨by decide, by decide, by decide⟩,
   (c4_reregistration_idempotent [bigBee] "alice" "research" "tasks" "%1" "%9"
     "alice-1111" "alice-2222" (by decide) (by decide) (by decide)).2.2⟩

/-! ### Claim C5 -/

/-- C5: when a directory row for the name exists (and ids are the primary
key, pairwise distinct), deregister returns the record exactly as it stood
before removal — the read and the delete are one pure step of
`deregisterAgent` — removes that row and no other, and reports success;
when no row exists, the call reports success and leaves the directory
unchanged. -/
theorem c5_deregister_snapshot_and_idempotent (w : World) (name : String)
    (hnodup : (w.agents.map (fun r => r.id)).Nodup) :
    (getAgentByName w.agents name = none →
      (agentDeregister w name).world = w ∧
      (agentDeregister w name).success = true) ∧
    (∀ a, getAgentByName w.agents name = some a → a.id ≠ "" →
      (deregisterAgent w.agents a.id).2 = some a ∧
      (agentDeregister w name).success = true ∧
      a ∉ (agentDeregister w name).world.agents ∧
      (∀ r ∈ w.agents, r.id ≠ a.id →
        r ∈ (agentDeregister w name).world.agents)) := by
  constructor
  · intro h
    simp [agentDeregister, h]
  · intro a ha hid
    have hmem : a ∈ w.agents := List.mem_of_find?_eq_some ha
    have hfind : w.agents.find? (fun r => r.id == a.id) = some a :=
      find?_id_of_mem hmem hnodup
    have hsnap : (deregisterAgent w.agents a.id).2 = some a := by
      unfold deregisterAgent
      rw [hfind]
    have hworld : (agentDeregister w name).world.agents =
        w.agents.filter (fun x => x.id != a.id) := by
      simp only [agentDeregister, ha, if_neg hid, deregisterAgent, hfind]
    refine ⟨hsnap, ?_, ?_, ?_⟩
    · simp [agentDeregister, ha, hid]
    · rw [hworld]
      intro hcon
      have := (List.mem_filter.mp hcon).2
      simp at this
    · intro r hr hrid
      rw [hworld]
      exact List.mem_filter.mpr ⟨hr, by simp [hrid]⟩

/-- Witness for C5: deregistering `alice` from a one-row directory returns
her exact record and removes her; deregistering an unknown name succeeds and
changes nothing. -/
theorem c5_deregister_witness :
    (getAgentByName [aliceR] "zoe" = none ∧
      (agentDeregister ⟨[aliceR], {}⟩ "zoe").world = ⟨[aliceR], {}⟩) ∧
    ((deregisterAgent [aliceR] aliceR.id).2 = some aliceR ∧
      aliceR ∉ (agentDeregister ⟨[aliceR], {}⟩ "alice").world.agents) :=
  ⟨⟨by decide,
    ((c5_deregister_snapshot_and_idempotent ⟨[aliceR], {}⟩ "zoe"
      (by decide)).1 (by decide)).1⟩,
   ⟨((c5_deregister_snapshot_and_idempotent ⟨[aliceR], {}⟩ "alice"
      (by decide)).2 aliceR (by decide) (by decide)).1,
    ((c5_deregister_snapshot_and_idempotent ⟨[aliceR], {}⟩ "alice"
      (by decide)).2 aliceR (by decide) (by decide)).2.2.1⟩⟩

/-- A peer reachable through both the ephemeral and the durable pane field. -/
def bobEphemeral : Agent := ⟨"bob-2", "bob", "research", some "%2", some "task:1.2"⟩

/-- A second peer. -/
def carolR : Agent := ⟨"carol-1", "carol", "research", some "%3", some "task:1.3"⟩

/-- A third peer. -/
def daveR : Agent := ⟨"dave-1", "dave", "research", some "%4", some "task:1.4"⟩

/-- Common reduction of a delivering `agent_broadcast` call: a found sender
with a non-empty id and a non-empty target list reach the log-write and the
delivery loop. -/
theorem agentBroadcast_delivering (w : World)
    (snd : String → Except String Unit) (name message : String)
    (group : Option String) (s : Agent)
    (hs : getAgentByName w.agents name = some s) (hid : s.id ≠ "")
    (hts : broadcastTargetSel w.agents name
      (targetGroupOf group (senderGroupOf s)) ≠ []) :
    agentBroadcast w snd name message group =
      ⟨⟨w.agents,
        (logMessage w.log "BROADCAST" (some s.id) none none message).2⟩,
       broadcastReport
         (broadcastTargetSel w.agents name
           (targetGroupOf group (senderGroupOf s))).length
         (targetGroupOf group (senderGroupOf s))
         (broadcastLoop snd ("[" ++ name ++ "] " ++ message)
           (broadcastTargetSel w.agents name
             (targetGroupOf group (senderGroupOf s)))).1,
       Ev.logWrite (logMessage w.log "BROADCAST" (some s.id) none none message).1 ::
         (broadcastLoop snd ("[" ++ name ++ "] " ++ message)
           (broadcastTargetSel w.agents name
             (targetGroupOf group (senderGroupOf s)))).2⟩ := by
  unfold agentBroadcast
  rw [hs]
  simp only [if_neg hid, if_neg hts]

/-! ### Claim C6 -/

/-- C6: a delivering broadcast call (registered sender, non-empty target set)
appends exactly one BROADCAST entry to the message log for the whole call,
and its event trace is the log write first, followed by the per-target
deliveries in target order, each delivery's start immediately followed by its
awaited end before the next delivery starts. -/
theorem c6_broadcast_log_once_then_sequential (w : World)
    (snd : String → Except String Unit) (name message : String)
    (group : Option String) (s : Agent)
    (hs : getAgentByName w.agents name = some s) (hid : s.id ≠ "")
    (hts : broadcastTargetSel w.agents name
      (targetGroupOf group (senderGroupOf s)) ≠ []) :
    (agentBroadcast w snd name message group).world.log.msgs.length =
      w.log.msgs.length + 1 ∧
    (agentBroadcast w snd name message group).trace =
      Ev.logWrite w.log.next ::
        (broadcastTargetSel w.agents name
          (targetGroupOf group (senderGroupOf s))).flatMap
          (deliveryEvents snd ("[" ++ name ++ "] " ++ message)) := by
  rw [agentBroadcast_delivering w snd name message group s hs hid hts]
  constructor
  · simp [logMessage]
  · have hloop := broadcastLoop_eq snd ("[" ++ name ++ "] " ++ message)
      (broadcastTargetSel w.agents name (targetGroupOf group (senderGroupOf s)))
      (fun t ht => mem_broadcastTargetSel ht)
    rw [hloop]
    simp [logMessage]

/-- Witness for C6: `alice` broadcasts `hi` to the one-target group
`research`; one log entry, the write first, then the start/end pair. -/
theorem c6_broadcast_witness :
    (getAgentByName [aliceR, bobEphemeral] "alice" = some aliceR ∧
      aliceR.id ≠ "" ∧
      broadcastTargetSel [aliceR, bobEphemeral] "alice"
        (targetGroupOf none (senderGroupOf aliceR)) ≠ []) ∧
    (agentBroadcast ⟨[aliceR, bobEphemeral], {}⟩ (fun _ => .ok ())
      "alice" "hi" none).world.log.msgs.length = 1 ∧
    (agentBroadcast ⟨[aliceR, bobEphemeral], {}⟩ (fun _ => .ok ())
      "alice" "hi" none).trace =
      [Ev.logWrite 1, Ev.sndStart "bob" "task:1.2" "[alice] hi",
       Ev.sndEnd "bob" true] :=
  ⟨⟨by decide, by decide, by decide⟩, by
    have h := c6_broadcast_log_once_then_sequential ⟨[aliceR, bobEphemeral], {}⟩
      (fun _ => .ok ()) "alice" "hi" none aliceR (by decide) (by decide)
      (by decide)
    exact ⟨h.1, by rw [h.2]; rfl⟩⟩

/-! ### Claim C7 -/

/-- C7: in a broadcast whose target set is three agents where the second
delivery fails with reason `e`, the failure is caught and recorded as the
cross entry with the reason, the first and third deliveries are still
attempted (their start events occur) and reported as successes, and the call
returns the normal aggregate report rather than raising. -/
theorem c7_partial_failure_isolated (w : World)
    (snd : String → Except String Unit) (name message : String)
    (group : Option String) (s t1 t2 t3 : Agent) (e : String)
    (hs : getAgentByName w.agents name = some s) (hid : s.id ≠ "")
    (hts : broadcastTargetSel w.agents name
      (targetGroupOf group (senderGroupOf s)) = [t1, t2, t3])
    (h1 : snd (sndAddr t1) = .ok ())
    (h2 : snd (sndAddr t2) = .error e)
    (h3 : snd (sndAddr t3) = .ok ()) :
    (agentBroadcast w snd name message group).result =
      broadcastReport 3 (targetGroupOf group (senderGroupOf s))
        ["✓ " ++ t1.name, "✗ " ++ t2.name ++ ": " ++ e, "✓ " ++ t3.name] ∧
    (agentBroadcast w snd name message group).trace =
      [Ev.logWrite w.log.next,
       Ev.sndStart t1.name (sndAddr t1) ("[" ++ name ++ "] " ++ message),
       Ev.sndEnd t1.name true,
       Ev.sndStart t2.name (sndAddr t2) ("[" ++ name ++ "] " ++ message),
       Ev.sndEnd t2.name false,
       Ev.sndStart t3.name (sndAddr t3) ("[" ++ name ++ "] " ++ message),
       Ev.sndEnd t3.name true] := by
  have hne : broadcastTargetSel w.agents name
      (targetGroupOf group (senderGroupOf s)) ≠ [] := by
    rw [hts]
    simp
  rw [agentBroadcast_delivering w snd name message group s hs hid hne]
  have hloop := broadcastLoop_eq snd ("[" ++ name ++ "] " ++ message)
    (broadcastTargetSel w.agents name (targetGroupOf group (senderGroupOf s)))
    (fun t ht => mem_broadcastTargetSel ht)
  rw [hts] at hloop
  constructor
  · rw [hts, hloop]
    simp [deliveryResult, h1, h2, h3]
  · rw [hts, hloop]
    simp [deliveryEvents, sndOk, h1, h2, h3, logMessage]

/-- Witness for C7: a three-target broadcast from `alice` where delivery to
`carol` fails; `bob` and `dave` are still delivered and reported. -/
theorem c7_partial_failure_witness :
    (getAgentByName [aliceR, bobEphemeral, carolR, daveR] "alice" = some aliceR ∧
      aliceR.id ≠ "" ∧
      broadcastTargetSel [aliceR, bobEphemeral, carolR, daveR] "alice"
        (targetGroupOf none (senderGroupOf aliceR)) =
        [bobEphemeral, carolR, daveR]) ∧
    (agentBroadcast ⟨[aliceR, bobEphemeral, carolR, daveR], {}⟩
      (fun a => if a == "task:1.3" then .error "Error: snd failed with code 1"
        else .ok ())
      "alice" "hi" none).result =
      broadcastReport 3 (targetGroupOf none (senderGroupOf aliceR))
        ["✓ bob", "✗ carol: Error: snd failed with code 1", "✓ dave"] :=
  ⟨⟨by decide, by decide, by decide⟩, by
    have h := c7_partial_failure_isolated
      ⟨[aliceR, bobEphemeral, carolR, daveR], {}⟩
      (fun a => if a == "task:1.3" then .error "Error: snd failed with code 1"
        else .ok ())
      "alice" "hi" none aliceR bobEphemeral carolR daveR
      "Error: snd failed with code 1"
      (by decide) (by decide) (by decide) rfl rfl rfl
    rw [h.1]
    rfl⟩

/-! ### Claim C8 -/

/-- C8 (failing input): the broadcast target filter of
`src/unnamed/part_002` line 174 tests `a.pane_id` alone, so `bob` — whose
resolved pane address `task:1.2` is non-null, who is not the sender, and
who is in the sender's group scope — is excluded from the target set: the
computed target list is empty, the call answers the no-targets error and
writes no message-log entry, contradicting the claimed target set (all rows
with a non-null resolved address, sender excluded, intersected with the
group). -/
theorem c8_broadcast_drops_stable_only_agent :
    resolveTarget bobStable.stable_pane bobStable.pane_id = some "task:1.2" ∧
    bobStable.name ≠ "alice" ∧
    bobStable.group_name = senderGroupOf aliceR ∧
    broadcastTargetSel [aliceR, bobStable] "alice"
      (targetGroupOf none (senderGroupOf aliceR)) = [] ∧
    (agentBroadcast ⟨[aliceR, bobStable], {}⟩ (fun _ => .ok ())
      "alice" "hi" none).world.log.msgs = [] ∧
    (agentBroadcast ⟨[aliceR, bobStable], {}⟩ (fun _ => .ok ())
      "alice" "hi" none).result =
      noTargetsMsg [aliceR, bobStable] (some "research") := by
  refine ⟨rfl, by decide, rfl, rfl, rfl, rfl⟩

/-- Every delivery-start event the broadcast loop emits carries the formatted
message the loop was given. -/
theorem broadcastLoop_start_msg (snd : String → Except String Unit)
    (fmsg : String) (t addr m : String) :
    ∀ ts, Ev.sndStart t addr m ∈ (broadcastLoop snd fmsg ts).2 → m = fmsg := by
  intro ts
  induction ts with
  | nil => intro h; simp [broadcastLoop] at h
  | cons x xs ih =>
    intro h
    unfold broadcastLoop at h
    by_cases hx : strTruthy x.pane_id || strTruthy x.stable_pane
    · rw [if_pos hx] at h
      cases hs : snd (sndAddr x) with
      | ok u =>
        rw [hs] at h
        rcases List.mem_cons.mp h with h1 | h1
        · cases h1; rfl
        · rcases List.mem_cons.mp h1 with h2 | h2
          · cases h2
          · exact ih h2
      | error e =>
        rw [hs] at h
        rcases List.mem_cons.mp h with h1 | h1
        · cases h1; rfl
        · rcases List.mem_cons.mp h1 with h2 | h2
          · cases h2
          · exact ih h2
    · rw [if_neg hx] at h
      exact ih h

/-- Every delivery-start event the channel loop emits carries the formatted
message the loop was given. -/
theorem channelLoop_start_msg (snd : String → Except String Unit)
    (fmsg : String) (t addr m : String) :
    ∀ ts, Ev.sndStart t addr m ∈ channelLoop snd fmsg ts → m = fmsg := by
  intro ts
  induction ts with
  | nil => intro h; simp [channelLoop] at h
  | cons x xs ih =>
    intro h
    unfold channelLoop at h
    by_cases hx : strTruthy x.pane_id || strTruthy x.stable_pane
    · rw [if_pos hx] at h
      rcases List.mem_cons.mp h with h1 | h1
      · cases h1; rfl
      · rcases List.mem_cons.mp h1 with h2 | h2
        · cases h2
        · exact ih h2
    · rw [if_neg hx] at h
      exact ih h

/-- The trace of `agent_broadcast` is either empty (error branches) or a log
write followed by the delivery-loop events for the broadcast template. -/
theorem agentBroadcast_trace_shape (w : World)
    (snd : String → Except String Unit) (name message : String)
    (group : Option String) :
    (agentBroadcast w snd name message group).trace = [] ∨
    ∃ i ts, (agentBroadcast w snd name message group).trace =
      Ev.logWrite i ::
        (broadcastLoop snd ("[" ++ name ++ "] " ++ message) ts).2 := by
  unfold agentBroadcast
  cases h : getAgentByName w.agents name with
  | none => left; rfl
  | some s =>
    by_cases hid : s.id = ""
    · left; simp [hid]
    · by_cases hts : broadcastTargetSel w.agents name
        (targetGroupOf group (senderGroupOf s)) = []
      · left; simp [if_neg hid, hts]
      · right
        refine ⟨(logMessage w.log "BROADCAST" (some s.id) none none message).1,
          broadcastTargetSel w.agents name (targetGroupOf group (senderGroupOf s)),
          ?_⟩
        simp [if_neg hid, if_neg hts]

/-- The trace of `agent_dm` is either empty (error branches) or a log write
followed by the one delivery, formatted with the DM template. -/
theorem agentDM_trace_shape (w : World) (snd : String → Except String Unit)
    (name toName message : String) :
    (agentDM w snd name toName message).trace = [] ∨
    ∃ i tn ad b, (agentDM w snd name toName message).trace =
      [Ev.logWrite i,
       Ev.sndStart tn ad ("[DM from " ++ name ++ "] " ++ message),
       Ev.sndEnd tn b] := by
  unfold agentDM
  cases h : getAgentByName w.agents name with
  | none => left; rfl
  | some sender =>
    by_cases hid : sender.id = ""
    · left; simp [hid]
    · cases h2 : getAgentByName w.agents toName with
      | none => left; simp [if_neg hid]
      | some target =>
        by_cases hid2 : target.id = ""
        · left; simp [if_neg hid, hid2]
        · by_cases hp : (!strTruthy target.pane_id && !strTruthy target.stable_pane) = true
          · left; simp [if_neg hid, if_neg hid2, hp]
          · cases hs : snd (sndAddr target) with
            | ok u =>
              right
              exact ⟨(logMessage w.log "DM" (some sender.id) (some target.id) none message).1,
                target.name, sndAddr target, true,
                by simp [if_neg hid, if_neg hid2, hp, hs]⟩
            | error e =>
              right
              exact ⟨(logMessage w.log "DM" (some sender.id) (some target.id) none message).1,
                target.name, sndAddr target, false,
                by simp [if_neg hid, if_neg hid2, hp, hs]⟩

/-! ### Claim C9 -/

/-- C9 counterexample: the departure notice the code logs for a concrete
deregistration is `alice left (group: research, pane: %1)` — the claimed
template `[LEFT] alice has left (group: research, pane: %1)` (the LEFT
marker and the word "has" inside the text) is not the logged text. -/
theorem c9_left_notice_differs :
    ((agentDeregister ⟨[aliceR], {}⟩ "alice").world.log.msgs.map
      (fun m => m.content)) = ["alice left (group: research, pane: %1)"] ∧
    ("alice left (group: research, pane: %1)" : String) ≠
      "[LEFT] alice has left (group: research, pane: %1)" :=
  ⟨rfl, by decide⟩

/-- C9 (amended): every text a broadcast delivery injects is
`[<name>] <message>`, every DM text is `[DM from <name>] <message>`, every
channel text is `[#<channel>] <name>: <message>`; the departure notice is
logged with message type LEFT and content
`<name> left (group: <group>, pane: <pane_id>)` (the raw nullable pane
field, no LEFT marker and no "has" inside the text). -/
theorem c9_message_templates :
    (∀ (w : World) (snd : String → Except String Unit)
      (name message : String) (group : Option String) (t addr m : String),
      Ev.sndStart t addr m ∈ (agentBroadcast w snd name message group).trace →
      m = "[" ++ name ++ "] " ++ message) ∧
    (∀ (w : World) (snd : String → Except String Unit)
      (name toName message t addr m : String),
      Ev.sndStart t addr m ∈ (agentDM w snd name toName message).trace →
      m = "[DM from " ++ name ++ "] " ++ message) ∧
    (∀ (w : World) (snd : String → Except String Unit)
      (name channel message t addr m : String),
      Ev.sndStart t addr m ∈ (channelSend w snd name channel message).trace →
      m = "[#" ++ channel ++ "] " ++ name ++ ": " ++ message) ∧
    (∀ (w : World) (name : String) (a : Agent),
      getAgentByName w.agents name = some a → a.id ≠ "" →
      (agentDeregister w name).world.log.msgs =
        w.log.msgs ++ [⟨w.log.next, "LEFT", some a.id, none, none,
          a.name ++ " left (group: " ++ a.group_name ++ ", pane: " ++
            jsShow a.pane_id ++ ")"⟩]) := by
  refine ⟨?_, ?_, ?_, ?_⟩
  · intro w snd name message group t addr m hm
    rcases agentBroadcast_trace_shape w snd name message group with h | ⟨i, ts, h⟩
    · rw [h] at hm
      cases hm
    · rw [h] at hm
      rcases List.mem_cons.mp hm with h1 | h1
      · cases h1
      · exact broadcastLoop_start_msg snd _ t addr m ts h1
  · intro w snd name toName message t addr m hm
    rcases agentDM_trace_shape w snd name toName message with h | ⟨i, tn, ad, b, h⟩
    · rw [h] at hm
      cases hm
    · rw [h] at hm
      rcases List.mem_cons.mp hm with h1 | h1
      · cases h1
      · rcases List.mem_cons.mp h1 with h2 | h2
        · cases h2; rfl
        · rcases List.mem_cons.mp h2 with h3 | h3
          · cases h3
          · cases h3
  · intro w snd name channel message t addr m hm
    unfold channelSend at hm
    rcases List.mem_cons.mp hm with h1 | h1
    · cases h1
    · exact channelLoop_start_msg snd _ t addr m _ h1
  · intro w name a ha hid
    simp only [agentDeregister, ha, if_neg hid, logMessage]

/-- Witness for C9 (amended) at a concrete broadcast delivery and a concrete
deregistration. -/
theorem c9_message_templates_witness :
    (Ev.sndStart "bob" "task:1.2" "[alice] hi" ∈
      (agentBroadcast ⟨[aliceR, bobEphemeral], {}⟩ (fun _ => .ok ())
        "alice" "hi" none).trace ∧
      ("[alice] hi" : String) = "[" ++ "alice" ++ "] " ++ "hi") ∧
    (getAgentByName [aliceR] "alice" = some aliceR ∧ aliceR.id ≠ "" ∧
      (agentDeregister ⟨[aliceR], {}⟩ "alice").world.log.msgs =
        [⟨1, "LEFT", some "alice-1", none, none,
          "alice left (group: research, pane: %1)"⟩]) :=
  ⟨⟨by decide,
    c9_message_templates.1 ⟨[aliceR, bobEphemeral], {}⟩ (fun _ => .ok ())
      "alice" "hi" none "bob" "task:1.2" "[alice] hi" (by decide)⟩,
   ⟨by decide, by decide, by
    have h := c9_message_templates.2.2.2 ⟨[aliceR], {}⟩ "alice" aliceR
      (by decide) (by decide)
    rw [h]
    rfl⟩⟩

/-! ### Claim C10 -/

/-- C10: `channel_send` never answers a not-registered error: for every
caller — registered or not — it appends exactly one CHANNEL entry to the
message log, with `sender?.id || name` as the sender identity (the supplied
name itself when no directory row exists), and answers the success report
with the attempted recipient count. -/
theorem c10_channel_send_always_logs (w : World)
    (snd : String → Except String Unit) (name channel message : String) :
    (channelSend w snd name channel message).world.log.msgs =
      w.log.msgs ++ [⟨w.log.next, "CHANNEL",
        some (jsOrStr ((getAgentByName w.agents name).map (fun a => a.id)) name),
        none, some channel, message⟩] ∧
    (getAgentByName w.agents name = none →
      jsOrStr ((getAgentByName w.agents name).map (fun a => a.id)) name = name) ∧
    (channelSend w snd name channel message).result =
      "Message sent to #" ++ channel ++ " (" ++
        toString (channelTargets w.agents name channel).length ++
        " recipients)" :=
  ⟨rfl, fun h => by rw [h]; rfl, rfl⟩

/-- Witness for C10: an unregistered caller posts to `#research`; the single
CHANNEL entry carries the caller-supplied name as sender identity and the
call reports the recipient count. -/
theorem c10_channel_send_witness :
    getAgentByName [aliceR] "ghost" = none ∧
    (channelSend ⟨[aliceR], {}⟩ (fun _ => .ok ())
      "ghost" "research" "yo").world.log.msgs =
      [⟨1, "CHANNEL", some "ghost", none, some "research", "yo"⟩] ∧
    (channelSend ⟨[aliceR], {}⟩ (fun _ => .ok ())
      "ghost" "research" "yo").result =
      "Message sent to #research (1 recipients)" :=
  ⟨by decide, by
    have h := c10_channel_send_always_logs ⟨[aliceR], {}⟩ (fun _ => .ok ())
      "ghost" "research" "yo"
    rw [h.1]
    rfl, by
    have h := c10_channel_send_always_logs ⟨[aliceR], {}⟩ (fun _ => .ok ())
      "ghost" "research" "yo"
    rw [h.2.2]
    rfl⟩

end AgentsMcp
